import Mathlib

/-!
Verification of the frontend-asset-proxy path-resolution and object-proxying
engine: a shallow embedding of the Go source (`internal/s3`, `main.go`) and
proofs about it.  The object-store client, URL unescaping and HTTP-date
parsing/formatting are external collaborators and enter as parameters.
-/

namespace FrontendAssetProxy

/-! ### String helpers modelling the Go strings package -/

/-- Go `strings.HasPrefix(s, pre)`. -/
def goHasPrefix (s pre : String) : Bool := pre.toList.isPrefixOf s.toList

/-- Go `strings.HasSuffix(s, suf)`. -/
def goHasSuffix (s suf : String) : Bool := suf.toList.isSuffixOf s.toList

/-- Go `strings.TrimPrefix(s, pre)`: drops `pre` from the front of `s` when
present, otherwise returns `s` unchanged. -/
def goTrimPrefix (s pre : String) : String :=
  if goHasPrefix s pre then String.mk (s.toList.drop pre.toList.length) else s

/-- Index of the first occurrence of `t` in the character list, `-1` when
absent (Go `strings.IndexByte` on ASCII data). -/
def indexOfAux : List Char → Char → Int
  | [], _ => -1
  | c :: rest, t =>
    if c = t then 0
    else
      let r := indexOfAux rest t
      if r = -1 then -1 else r + 1

/-- Go `strings.IndexByte(s, c)` (the source only searches for `'/'`, which is
a single byte, so byte index and character index coincide on the paths the
proxy handles). -/
def goIndexByte (s : String) (c : Char) : Int := indexOfAux s.toList c

/-- `JoinPath` from `internal/s3`: joins two path fragments with exactly one
slash between them when neither or both supply one. -/
def JoinPath (a b : String) : String :=
  if goHasSuffix a "/" && goHasPrefix b "/" then a ++ String.mk (b.toList.drop 1)
  else if !goHasSuffix a "/" && !goHasPrefix b "/" then a ++ "/" ++ b
  else a ++ b

/-! ### Upstream error model and `s3ErrorToStatus` -/

/-- The universe of Go error values `s3ErrorToStatus` inspects.  `nilErr`
stands for Go's `nil` error; each wrapping constructor's `inner` field is what
`errors.Unwrap` would return.  `responseError` is `smithyhttp.ResponseError`
(its `response` field is the status code of the attached `*http.Response`,
`none` when that response pointer is nil), `operationError` is
`smithy.OperationError`, `apiError` is a `smithy.APIError` with the given
error code, and `generic` is any other error (for example `errors.New`). -/
inductive S3Err : Type where
  | nilErr : S3Err
  | deadlineExceeded : S3Err
  | responseError (response : Option Nat) (inner : S3Err) : S3Err
  | operationError (inner : S3Err) : S3Err
  | apiError (code : String) (inner : S3Err) : S3Err
  | generic (inner : S3Err) : S3Err
deriving DecidableEq, Repr

/-- Go `errors.Is(err, context.DeadlineExceeded)`: walks the unwrap chain
looking for the sentinel. -/
def errIsDeadline : S3Err → Bool
  | .deadlineExceeded => true
  | .responseError _ i => errIsDeadline i
  | .operationError i => errIsDeadline i
  | .apiError _ i => errIsDeadline i
  | .generic i => errIsDeadline i
  | .nilErr => false

/-- Go `errors.As(err, &respErr)` for `*smithyhttp.ResponseError`: the
response field of the first such error on the unwrap chain. -/
def asResponseError : S3Err → Option (Option Nat)
  | .responseError resp _ => some resp
  | .operationError i => asResponseError i
  | .apiError _ i => asResponseError i
  | .generic i => asResponseError i
  | .deadlineExceeded => none
  | .nilErr => none

/-- Go `errors.As(err, &opErr)` for `*smithy.OperationError`: the wrapped
`Err` of the first such error on the unwrap chain (`some .nilErr` models an
operation error whose `Err` field is nil). -/
def asOperationError : S3Err → Option S3Err
  | .operationError i => some i
  | .responseError _ i => asOperationError i
  | .apiError _ i => asOperationError i
  | .generic i => asOperationError i
  | .deadlineExceeded => none
  | .nilErr => none

/-- Go `errors.As(err, &apiErr)` for `smithy.APIError`: the error code of the
first such error on the unwrap chain. -/
def asAPIError : S3Err → Option String
  | .apiError code _ => some code
  | .responseError _ i => asAPIError i
  | .operationError i => asAPIError i
  | .generic i => asAPIError i
  | .deadlineExceeded => none
  | .nilErr => none

/-- The `switch apiErr.ErrorCode()` table of `s3ErrorToStatus`; `none` when no
case matches (the Go switch falls through). -/
def apiCodeToStatus (code : String) : Option Nat :=
  if code ∈ ["NoSuchBucket", "NoSuchKey", "NotFound", "NoSuchVersion"] then
    some 404
  else if code ∈ ["AccessDenied", "Forbidden", "SignatureDoesNotMatch",
      "InvalidAccessKeyId", "ExpiredToken", "RequestTimeTooSkewed",
      "InvalidObjectState"] then
    some 403
  else if code = "PreconditionFailed" then some 412
  else if code = "InvalidRange" then some 416
  else if code ∈ ["AuthorizationHeaderMalformed", "InvalidRequest",
      "InvalidArgument", "MalformedXML"] then
    some 400
  else if code = "RequestTimeout" then some 408
  else if code ∈ ["SlowDown", "ServiceUnavailable"] then some 503
  else if code = "InternalError" then some 500
  else none

/-- Size of the unwrap chain, the termination measure for the
`OperationError` recursion of `s3ErrorToStatus`. -/
def errSize : S3Err → Nat
  | .nilErr => 0
  | .deadlineExceeded => 0
  | .responseError _ i => errSize i + 1
  | .operationError i => errSize i + 1
  | .apiError _ i => errSize i + 1
  | .generic i => errSize i + 1

theorem errSize_asOperationError {e i : S3Err} (h : asOperationError e = some i) :
    errSize i < errSize e := by
  induction e with
  | nilErr => simp [asOperationError] at h
  | deadlineExceeded => simp [asOperationError] at h
  | responseError resp inner ih =>
    simp only [asOperationError] at h
    exact Nat.lt_trans (ih h) (Nat.lt_succ_self _)
  | operationError inner ih =>
    simp only [asOperationError, Option.some.injEq] at h
    subst h; exact Nat.lt_succ_self _
  | apiError code inner ih =>
    simp only [asOperationError] at h
    exact Nat.lt_trans (ih h) (Nat.lt_succ_self _)
  | generic inner ih =>
    simp only [asOperationError] at h
    exact Nat.lt_trans (ih h) (Nat.lt_succ_self _)

/-- The tail of `s3ErrorToStatus`: the `smithy.APIError` switch, with 502 when
no API error is found or no switch case matches. -/
def apiErrorStatus (e : S3Err) : Nat :=
  match asAPIError e with
  | some code => (apiCodeToStatus code).getD 502
  | none => 502

/-- `s3ErrorToStatus` from `internal/s3`: maps upstream errors to HTTP status
codes, checking deadline-exceeded first, then a response-bearing error (whose
raw status is returned verbatim), then unwrapping one `OperationError` layer
and re-mapping, then the API-error-code table, and 502 otherwise. -/
def s3ErrorToStatus (e : S3Err) : Nat :=
  if errIsDeadline e then 504
  else
    match asResponseError e with
    | some (some sc) => sc
    | _ =>
      match h2 : asOperationError e with
      | some S3Err.nilErr => apiErrorStatus e
      | some i => s3ErrorToStatus i
      | none => apiErrorStatus e
termination_by errSize e
decreasing_by
  all_goals exact errSize_asOperationError h2

/-! ### Request, configuration and response model -/

/-- The external collaborators of the proxy core: `http.ParseTime` (HTTP-date
parsing, `none` on a malformed date), `url.PathUnescape` (`none` when Go's
unescape returns an error), and `time.Format(http.TimeFormat)`.  Timestamps
are abstract (`Nat`). -/
structure Externals where
  parseTime : String → Option Nat
  pathUnescape : String → Option String
  formatHTTPTime : Nat → String

/-- The part of `FrontendAssetProxyConfig` the proxy core reads. -/
structure Config where
  bucketPathPrefix : String
  spaEntrypointPath : String
deriving DecidableEq, Repr

/-- The inbound `*http.Request` fields `ProxyS3` reads: the method and the
five conditional headers, each as `r.Header.Get` returns it (the empty string
when the header is absent). -/
structure InRequest where
  method : String
  range : String := ""
  ifNoneMatch : String := ""
  ifMatch : String := ""
  ifModifiedSince : String := ""
  ifUnmodifiedSince : String := ""
deriving DecidableEq, Repr

/-- The `s3.GetObjectInput` built for one upstream fetch: bucket, key and the
optional conditional fields. -/
structure FetchRequest where
  bucket : String
  key : String
  range : Option String := none
  ifNoneMatch : Option String := none
  ifMatch : Option String := none
  ifModifiedSince : Option Nat := none
  ifUnmodifiedSince : Option Nat := none
deriving DecidableEq, Repr

/-- The `s3.GetObjectOutput` fields the response writer copies; `body` is the
full content of the object's byte stream. -/
structure ObjectOutput where
  body : String
  contentType : Option String := none
  eTag : Option String := none
  cacheControl : Option String := none
  contentEncoding : Option String := none
  contentDisposition : Option String := none
  contentLanguage : Option String := none
  expiresString : Option String := none
  acceptRanges : Option String := none
  contentLength : Option Int := none
  lastModified : Option Nat := none
deriving DecidableEq, Repr

/-- Outcome of one `GetObject` call: a streamable object or an error. -/
inductive FetchOutcome : Type where
  | success (obj : ObjectOutput) : FetchOutcome
  | failure (err : S3Err) : FetchOutcome
deriving DecidableEq, Repr

/-- The HTTP response written to the client: status, headers in the order the
code sets them, and the body. -/
structure Response where
  status : Nat
  headers : List (String × String)
  body : String
deriving DecidableEq, Repr

/-- Go `http.StatusText` for the status codes this proxy can emit; unknown
codes map to the empty string exactly as in the Go standard library. -/
def statusText (code : Nat) : String :=
  match code with
  | 200 => "OK"
  | 204 => "No Content"
  | 206 => "Partial Content"
  | 301 => "Moved Permanently"
  | 302 => "Found"
  | 304 => "Not Modified"
  | 400 => "Bad Request"
  | 401 => "Unauthorized"
  | 403 => "Forbidden"
  | 404 => "Not Found"
  | 405 => "Method Not Allowed"
  | 408 => "Request Timeout"
  | 410 => "Gone"
  | 412 => "Precondition Failed"
  | 416 => "Requested Range Not Satisfiable"
  | 429 => "Too Many Requests"
  | 500 => "Internal Server Error"
  | 502 => "Bad Gateway"
  | 503 => "Service Unavailable"
  | 504 => "Gateway Timeout"
  | _ => ""

/-- Go `http.Error(w, text, status)`: plain-text content type, nosniff, the
text and a trailing newline as the body. -/
def httpError (text : String) (status : Nat) : Response :=
  { status := status
    headers := [("Content-Type", "text/plain; charset=utf-8"),
                ("X-Content-Type-Options", "nosniff")]
    body := text ++ "\n" }

/-! ### The object fetch request and path split of `ProxyS3` -/

/-- Lines 54-64 of `internal/s3`: trim the leading slash, split at the first
remaining slash into bucket and key, refuse an empty bucket or key, and
percent-decode the key (falling back to the raw key when decoding fails). -/
def splitPath (ext : Externals) (full : String) : Option (String × String) :=
  let path := goTrimPrefix full "/"
  let idx := goIndexByte path '/'
  if idx ≤ 0 || idx ≥ (path.length : Int) - 1 then none
  else
    let bucket := String.mk (path.toList.take idx.toNat)
    let rawKey := String.mk (path.toList.drop (idx.toNat + 1))
    let key := match ext.pathUnescape rawKey with
      | some ukey => ukey
      | none => rawKey
    some (bucket, key)

/-- A conditional string header: set on the fetch only when non-empty. -/
def headerOptString (v : String) : Option String :=
  if v ≠ "" then some v else none

/-- A conditional date header: set on the fetch only when non-empty and
parseable as an HTTP date (a malformed date is silently dropped). -/
def headerOptTime (ext : Externals) (v : String) : Option Nat :=
  if v ≠ "" then ext.parseTime v else none

/-- Lines 70-89 of `internal/s3`: the `GetObjectInput` for one fetch, carrying
the inbound request's conditional headers. -/
def buildFetchRequest (ext : Externals) (r : InRequest) (bucket key : String) :
    FetchRequest :=
  { bucket := bucket
    key := key
    range := headerOptString r.range
    ifNoneMatch := headerOptString r.ifNoneMatch
    ifMatch := headerOptString r.ifMatch
    ifModifiedSince := headerOptTime ext r.ifModifiedSince
    ifUnmodifiedSince := headerOptTime ext r.ifUnmodifiedSince }

/-! ### The response writer -/

/-- `setHeaderFromStringPtr`: set the header only when the descriptor supplies
a value. -/
def setHeaderFromStringPtr (hs : List (String × String)) (key : String)
    (val : Option String) : List (String × String) :=
  match val with
  | some v => hs ++ [(key, v)]
  | none => hs

/-- The `Content-Length` write: `strconv.FormatInt(n, 10)` when present. -/
def withContentLength (hs : List (String × String)) (cl : Option Int) :
    List (String × String) :=
  match cl with
  | some n => hs ++ [("Content-Length", toString n)]
  | none => hs

/-- The `Last-Modified` write: the timestamp in HTTP-date form when present. -/
def withLastModified (ext : Externals) (hs : List (String × String))
    (lm : Option Nat) : List (String × String) :=
  match lm with
  | some t => hs ++ [("Last-Modified", ext.formatHTTPTime t)]
  | none => hs

/-- Lines 125-145 of `internal/s3`: the 200 response for a successful fetch.
`Vary` is set unconditionally, each optional header only when the descriptor
supplies it, and the body is streamed unless the inbound method is HEAD. -/
def successResponse (ext : Externals) (r : InRequest) (obj : ObjectOutput) :
    Response :=
  let hs := [("Vary", "Accept-Encoding")]
  let hs := setHeaderFromStringPtr hs "Content-Type" obj.contentType
  let hs := setHeaderFromStringPtr hs "ETag" obj.eTag
  let hs := setHeaderFromStringPtr hs "Cache-Control" obj.cacheControl
  let hs := setHeaderFromStringPtr hs "Content-Encoding" obj.contentEncoding
  let hs := setHeaderFromStringPtr hs "Content-Disposition" obj.contentDisposition
  let hs := setHeaderFromStringPtr hs "Content-Language" obj.contentLanguage
  let hs := setHeaderFromStringPtr hs "Expires" obj.expiresString
  let hs := setHeaderFromStringPtr hs "Accept-Ranges" obj.acceptRanges
  let hs := withContentLength hs obj.contentLength
  let hs := withLastModified ext hs obj.lastModified
  { status := 200
    headers := hs
    body := if r.method ≠ "HEAD" then obj.body else "" }

/-! ### The proxy controller `ProxyS3` -/

/-- The SPA entry object path: the configured bucket path joined with the
configured SPA entrypoint path. -/
def spaPathOf (cfg : Config) : String :=
  JoinPath cfg.bucketPathPrefix cfg.spaEntrypointPath

/-- Lines 107-110 of `internal/s3`: the fallback guard — the translated
status is 404 or 403, a SPA entrypoint is configured, and the current path
differs from the SPA entry object path. -/
def shouldFallback (cfg : Config) (status : Nat) (full : String) : Bool :=
  (decide (status = 404) || decide (status = 403)) &&
    decide (cfg.spaEntrypointPath ≠ "") && decide (full ≠ spaPathOf cfg)

/-- `ProxyS3` from `internal/s3`, as a function from the resolved full path to
the response together with the list of upstream fetch requests issued, in
order.  The upstream client is the function `fetch`; the structural recursion
guard (`full ≠ spaPathOf cfg`) is exactly the Go code's, and the recursive
call passes the original request `r` unchanged, as the Go code does. -/
def ProxyS3 (ext : Externals) (fetch : FetchRequest → FetchOutcome)
    (cfg : Config) (r : InRequest) (full : String) :
    Response × List FetchRequest :=
  match splitPath ext full with
  | none => (httpError "bad request" 400, [])
  | some (bucket, key) =>
    let req := buildFetchRequest ext r bucket key
    match fetch req with
    | .success obj => (successResponse ext r obj, [req])
    | .failure e =>
      let status := s3ErrorToStatus e
      if h : shouldFallback cfg status full = true then
        let inner := ProxyS3 ext fetch cfg r (spaPathOf cfg)
        (inner.1, req :: inner.2)
      else
        (httpError (statusText status) status, [req])
termination_by (if full = spaPathOf cfg then 0 else 1)
decreasing_by
  have hne : full ≠ spaPathOf cfg := by
    simp [shouldFallback] at h
    tauto
  simp [hne]

/-! ### The route resolution of `main.go` -/

/-- The `/manifests/*` route: the full object path is the bucket path joined
with the original request path (no `/data` insertion). -/
def manifestsFull (pathPfx urlPath : String) : String := JoinPath pathPfx urlPath

/-- The `/apps/*` route: trim the `/apps` segment and join the bucket path
with `/data` and the remainder. -/
def appsFull (pathPfx urlPath : String) : String :=
  JoinPath pathPfx ("/data" ++ goTrimPrefix urlPath "/apps")

/-- The HEAD route and the catch-all GET route: join the bucket path with
`/data` and the original request path. -/
def catchAllFull (pathPfx urlPath : String) : String :=
  JoinPath pathPfx ("/data" ++ urlPath)

/-! ### Concrete fixtures used by witnesses and counterexamples -/

/-- Concrete external collaborators: date parsing always succeeds (abstract
timestamp 0), percent-decoding is the identity (no escapes in the fixture
paths), HTTP dates format to a fixed string. -/
def extEx : Externals :=
  { parseTime := fun _ => some 0
    pathUnescape := fun s => some s
    formatHTTPTime := fun _ => "Thu, 01 Jan 1970 00:00:00 GMT" }

/-- The configuration of the repository's compose file: bucket path
`/frontend-assets`, SPA entrypoint `/index.html`. -/
def cfgEx : Config :=
  { bucketPathPrefix := "/frontend-assets", spaEntrypointPath := "/index.html" }

/-- The same bucket path with no SPA entrypoint configured. -/
def cfgNoSpa : Config :=
  { bucketPathPrefix := "/frontend-assets", spaEntrypointPath := "" }

/-- An upstream on which every object is missing. -/
def fetchNotFound : FetchRequest → FetchOutcome :=
  fun _ => .failure (.apiError "NoSuchKey" .nilErr)

/-- The SPA body served by the fixture upstream. -/
def spaObj : ObjectOutput := { body := "<html>spa</html>", contentType := some "text/html" }

/-- An upstream holding only the SPA entry object `index.html` at the root of
bucket `frontend-assets`; every other fetch reports `NoSuchKey`. -/
def fetchOnlySpa : FetchRequest → FetchOutcome :=
  fun req =>
    if req.bucket = "frontend-assets" ∧ req.key = "index.html" then
      .success spaObj
    else .failure (.apiError "NoSuchKey" .nilErr)

/-- A request carrying conditional headers. -/
def rCond : InRequest :=
  { method := "GET", range := "bytes=0-99", ifNoneMatch := "abc" }

/-- The navigation object of the C5 scenario. -/
def navObj : ObjectOutput :=
  { body := "{}", contentType := some "application/json" }

/-- An upstream holding only `navigation.json` under
`frontend-assets/data/chrome/`. -/
def fetchNav : FetchRequest → FetchOutcome :=
  fun req =>
    if req.bucket = "frontend-assets" ∧ req.key = "data/chrome/navigation.json" then
      .success navObj
    else .failure (.apiError "NoSuchKey" .nilErr)

/-- Every error code recognized by the `switch` of `s3ErrorToStatus`. -/
def recognizedCodes : List String :=
  ["NoSuchBucket", "NoSuchKey", "NotFound", "NoSuchVersion",
   "AccessDenied", "Forbidden", "SignatureDoesNotMatch", "InvalidAccessKeyId",
   "ExpiredToken", "RequestTimeTooSkewed", "InvalidObjectState",
   "PreconditionFailed", "InvalidRange",
   "AuthorizationHeaderMalformed", "InvalidRequest", "InvalidArgument",
   "MalformedXML", "RequestTimeout", "SlowDown", "ServiceUnavailable",
   "InternalError"]

/-! ### Characterization lemmas for `ProxyS3` -/

theorem proxyS3_split_none (ext : Externals) (fetch : FetchRequest → FetchOutcome)
    (cfg : Config) (r : InRequest) (full : String)
    (h : splitPath ext full = none) :
    ProxyS3 ext fetch cfg r full = (httpError "bad request" 400, []) := by
  rw [ProxyS3, h]

theorem proxyS3_success (ext : Externals) (fetch : FetchRequest → FetchOutcome)
    (cfg : Config) (r : InRequest) (full : String) (b k : String)
    (obj : ObjectOutput)
    (h1 : splitPath ext full = some (b, k))
    (h2 : fetch (buildFetchRequest ext r b k) = .success obj) :
    ProxyS3 ext fetch cfg r full =
      (successResponse ext r obj, [buildFetchRequest ext r b k]) := by
  rw [ProxyS3, h1]
  simp only [h2]

theorem proxyS3_failure_no_fallback (ext : Externals)
    (fetch : FetchRequest → FetchOutcome) (cfg : Config) (r : InRequest)
    (full : String) (b k : String) (e : S3Err)
    (h1 : splitPath ext full = some (b, k))
    (h2 : fetch (buildFetchRequest ext r b k) = .failure e)
    (h3 : shouldFallback cfg (s3ErrorToStatus e) full = false) :
    ProxyS3 ext fetch cfg r full =
      (httpError (statusText (s3ErrorToStatus e)) (s3ErrorToStatus e),
       [buildFetchRequest ext r b k]) := by
  rw [ProxyS3, h1]
  simp only [h2, h3]
  simp

theorem proxyS3_failure_fallback (ext : Externals)
    (fetch : FetchRequest → FetchOutcome) (cfg : Config) (r : InRequest)
    (full : String) (b k : String) (e : S3Err)
    (h1 : splitPath ext full = some (b, k))
    (h2 : fetch (buildFetchRequest ext r b k) = .failure e)
    (h3 : shouldFallback cfg (s3ErrorToStatus e) full = true) :
    ProxyS3 ext fetch cfg r full =
      ((ProxyS3 ext fetch cfg r (spaPathOf cfg)).1,
       buildFetchRequest ext r b k :: (ProxyS3 ext fetch cfg r (spaPathOf cfg)).2) := by
  rw [ProxyS3, h1]
  simp only [h2, h3]
  simp

/-- The fallback guard always refuses the SPA entry object path itself. -/
theorem shouldFallback_spa_self (cfg : Config) (status : Nat) :
    shouldFallback cfg status (spaPathOf cfg) = false := by
  simp [shouldFallback]

/-- A run started at the SPA entry object path issues at most one fetch. -/
theorem proxyS3_spa_fetches_le_one (ext : Externals)
    (fetch : FetchRequest → FetchOutcome) (cfg : Config) (r : InRequest) :
    (ProxyS3 ext fetch cfg r (spaPathOf cfg)).2.length ≤ 1 := by
  cases h1 : splitPath ext (spaPathOf cfg) with
  | none => simp [proxyS3_split_none ext fetch cfg r _ h1]
  | some bk =>
    obtain ⟨b, k⟩ := bk
    cases h2 : fetch (buildFetchRequest ext r b k) with
    | success obj => simp [proxyS3_success ext fetch cfg r _ b k obj h1 h2]
    | failure e =>
      rw [proxyS3_failure_no_fallback ext fetch cfg r _ b k e h1 h2
        (shouldFallback_spa_self cfg _)]
      simp

/-- A run started at the SPA entry object path, when the split succeeds,
issues exactly the one fetch for the SPA object. -/
theorem proxyS3_spa_fetches_eq (ext : Externals)
    (fetch : FetchRequest → FetchOutcome) (cfg : Config) (r : InRequest)
    (b k : String) (h1 : splitPath ext (spaPathOf cfg) = some (b, k)) :
    (ProxyS3 ext fetch cfg r (spaPathOf cfg)).2 =
      [buildFetchRequest ext r b k] := by
  cases h2 : fetch (buildFetchRequest ext r b k) with
  | success obj => simp [proxyS3_success ext fetch cfg r _ b k obj h1 h2]
  | failure e =>
    rw [proxyS3_failure_no_fallback ext fetch cfg r _ b k e h1 h2
      (shouldFallback_spa_self cfg _)]

/-- The API-error arm of `s3ErrorToStatus` for an unwrapped API error: the
switch table, with 502 for an unrecognized code. -/
theorem s3ErrorToStatus_apiError_nil (code : String) :
    s3ErrorToStatus (.apiError code .nilErr) = (apiCodeToStatus code).getD 502 := by
  rw [s3ErrorToStatus]
  simp [errIsDeadline, asResponseError, asOperationError, apiErrorStatus, asAPIError]

theorem apiCodeToStatus_eq_none_of_not_mem (code : String)
    (h : code ∉ recognizedCodes) : apiCodeToStatus code = none := by
  simp only [recognizedCodes, List.mem_cons, List.not_mem_nil, or_false,
    not_or] at h
  obtain ⟨h1, h2, h3, h4, h5, h6, h7, h8, h9, h10, h11, h12, h13, h14, h15,
    h16, h17, h18, h19, h20, h21⟩ := h
  simp [apiCodeToStatus, h1, h2, h3, h4, h5, h6, h7, h8, h9, h10, h11, h12,
    h13, h14, h15, h16, h17, h18, h19, h20, h21]

theorem mem_setHeaderFromStringPtr_of_mem {hs : List (String × String)}
    {key : String} {val : Option String} {x : String × String} (h : x ∈ hs) :
    x ∈ setHeaderFromStringPtr hs key val := by
  cases val with
  | none => simpa [setHeaderFromStringPtr] using h
  | some v =>
    simp only [setHeaderFromStringPtr, List.mem_append]
    exact Or.inl h

theorem mem_withContentLength_of_mem {hs : List (String × String)}
    {cl : Option Int} {x : String × String} (h : x ∈ hs) :
    x ∈ withContentLength hs cl := by
  cases cl with
  | none => simpa [withContentLength] using h
  | some n =>
    simp only [withContentLength, List.mem_append]
    exact Or.inl h

theorem mem_withLastModified_of_mem {ext : Externals}
    {hs : List (String × String)} {lm : Option Nat} {x : String × String}
    (h : x ∈ hs) : x ∈ withLastModified ext hs lm := by
  cases lm with
  | none => simpa [withLastModified] using h
  | some t =>
    simp only [withLastModified, List.mem_append]
    exact Or.inl h

theorem contentType_mem_successResponse (ext : Externals) (r : InRequest)
    (obj : ObjectOutput) (v : String) (h : obj.contentType = some v) :
    ("Content-Type", v) ∈ (successResponse ext r obj).headers := by
  simp only [successResponse]
  apply mem_withLastModified_of_mem
  apply mem_withContentLength_of_mem
  apply mem_setHeaderFromStringPtr_of_mem
  apply mem_setHeaderFromStringPtr_of_mem
  apply mem_setHeaderFromStringPtr_of_mem
  apply mem_setHeaderFromStringPtr_of_mem
  apply mem_setHeaderFromStringPtr_of_mem
  apply mem_setHeaderFromStringPtr_of_mem
  apply mem_setHeaderFromStringPtr_of_mem
  rw [h]
  simp [setHeaderFromStringPtr]

theorem splitPath_congr (ext ext' : Externals) (full : String)
    (h : ∀ s, ext.pathUnescape s = ext'.pathUnescape s) :
    splitPath ext full = splitPath ext' full := by
  simp [splitPath, h]

/-! ### The claims -/

/-- C1, counterexample: a request carrying `If-None-Match: abc` and
`Range: bytes=0-99` whose first fetch fails with 404 triggers the SPA
fallback, and the fallback fetch request carries the very same conditional
fields — they are not absent, contrary to the claim that the fallback is an
unconditional fetch. -/
theorem fallback_conditional_counterexample :
    (ProxyS3 extEx fetchNotFound cfgEx rCond
        "/frontend-assets/data/unknown/path").2.map FetchRequest.ifNoneMatch =
      [some "abc", some "abc"] ∧
    (ProxyS3 extEx fetchNotFound cfgEx rCond
        "/frontend-assets/data/unknown/path").2.map FetchRequest.range =
      [some "bytes=0-99", some "bytes=0-99"] ∧
    (some "abc" : Option String) ≠ none := by
  have h3 : shouldFallback cfgEx
      (s3ErrorToStatus (S3Err.apiError "NoSuchKey" S3Err.nilErr))
      "/frontend-assets/data/unknown/path" = true := by
    rw [s3ErrorToStatus_apiError_nil]; decide
  rw [proxyS3_failure_fallback extEx fetchNotFound cfgEx rCond
      "/frontend-assets/data/unknown/path" "frontend-assets" "data/unknown/path"
      (S3Err.apiError "NoSuchKey" S3Err.nilErr) (by decide) rfl h3,
    proxyS3_spa_fetches_eq extEx fetchNotFound cfgEx rCond
      "frontend-assets" "index.html" (by decide)]
  exact ⟨by decide, by decide, by decide⟩

/-- C1, amended: the fallback fetch is built from the same inbound request as
the first fetch, so every conditional field of the fallback fetch request
equals the corresponding field of the first fetch request — the original
request's conditional headers (Range, If-None-Match, If-Match,
If-Modified-Since, If-Unmodified-Since) are forwarded to the fallback fetch
whenever they were present on the original. -/
theorem fallback_keeps_conditional_headers (ext : Externals)
    (fetch : FetchRequest → FetchOutcome) (cfg : Config) (r : InRequest)
    (full b k : String) (e : S3Err) (b2 k2 : String)
    (h1 : splitPath ext full = some (b, k))
    (h2 : fetch (buildFetchRequest ext r b k) = FetchOutcome.failure e)
    (h3 : shouldFallback cfg (s3ErrorToStatus e) full = true)
    (h4 : splitPath ext (spaPathOf cfg) = some (b2, k2)) :
    (ProxyS3 ext fetch cfg r full).2 =
      [buildFetchRequest ext r b k, buildFetchRequest ext r b2 k2] ∧
    (ProxyS3 ext fetch cfg r full).2.map FetchRequest.range =
      [headerOptString r.range, headerOptString r.range] ∧
    (ProxyS3 ext fetch cfg r full).2.map FetchRequest.ifNoneMatch =
      [headerOptString r.ifNoneMatch, headerOptString r.ifNoneMatch] ∧
    (ProxyS3 ext fetch cfg r full).2.map FetchRequest.ifMatch =
      [headerOptString r.ifMatch, headerOptString r.ifMatch] ∧
    (ProxyS3 ext fetch cfg r full).2.map FetchRequest.ifModifiedSince =
      [headerOptTime ext r.ifModifiedSince, headerOptTime ext r.ifModifiedSince] ∧
    (ProxyS3 ext fetch cfg r full).2.map FetchRequest.ifUnmodifiedSince =
      [headerOptTime ext r.ifUnmodifiedSince,
       headerOptTime ext r.ifUnmodifiedSince] := by
  rw [proxyS3_failure_fallback ext fetch cfg r full b k e h1 h2 h3]
  simp only
  rw [proxyS3_spa_fetches_eq ext fetch cfg r b2 k2 h4]
  refine ⟨rfl, ?_, ?_, ?_, ?_, ?_⟩ <;> simp [buildFetchRequest]

/-- C1, witness: the amended theorem applied to the concrete fallback run of
the counterexample request. -/
theorem fallback_keeps_conditional_headers_witness :
    (ProxyS3 extEx fetchOnlySpa cfgEx rCond
        "/frontend-assets/data/unknown/path").2.map FetchRequest.range =
      [headerOptString rCond.range, headerOptString rCond.range] := by
  have h3 : shouldFallback cfgEx
      (s3ErrorToStatus (S3Err.apiError "NoSuchKey" S3Err.nilErr))
      "/frontend-assets/data/unknown/path" = true := by
    rw [s3ErrorToStatus_apiError_nil]; decide
  exact (fallback_keeps_conditional_headers extEx fetchOnlySpa cfgEx rCond
    "/frontend-assets/data/unknown/path" "frontend-assets" "data/unknown/path"
    (S3Err.apiError "NoSuchKey" S3Err.nilErr) "frontend-assets" "index.html"
    (by decide) (by decide) h3 (by decide)).2.1

/-- C2: every run of `ProxyS3` issues at most two upstream fetches, and when
the first fetch fails with a 403/404-translated status, the guard passes, the
SPA entry path resolves, and the fallback fetch also fails with 403/404, the
run's fetches are exactly the first fetch followed by the one fallback
fetch — no third fetch is ever attempted. -/
theorem at_most_two_fetches (ext : Externals)
    (fetch : FetchRequest → FetchOutcome) (cfg : Config) (r : InRequest)
    (full : String) :
    (ProxyS3 ext fetch cfg r full).2.length ≤ 2 ∧
    (∀ b k e b2 k2 e2,
      splitPath ext full = some (b, k) →
      fetch (buildFetchRequest ext r b k) = FetchOutcome.failure e →
      shouldFallback cfg (s3ErrorToStatus e) full = true →
      splitPath ext (spaPathOf cfg) = some (b2, k2) →
      fetch (buildFetchRequest ext r b2 k2) = FetchOutcome.failure e2 →
      (s3ErrorToStatus e2 = 404 ∨ s3ErrorToStatus e2 = 403) →
      (ProxyS3 ext fetch cfg r full).2 =
        [buildFetchRequest ext r b k, buildFetchRequest ext r b2 k2]) := by
  constructor
  · cases h1 : splitPath ext full with
    | none => simp [proxyS3_split_none ext fetch cfg r full h1]
    | some bk =>
      obtain ⟨b, k⟩ := bk
      cases h2 : fetch (buildFetchRequest ext r b k) with
      | success obj => simp [proxyS3_success ext fetch cfg r full b k obj h1 h2]
      | failure e =>
        cases h3 : shouldFallback cfg (s3ErrorToStatus e) full with
        | false =>
          rw [proxyS3_failure_no_fallback ext fetch cfg r full b k e h1 h2 h3]
          simp
        | true =>
          rw [proxyS3_failure_fallback ext fetch cfg r full b k e h1 h2 h3]
          have hle := proxyS3_spa_fetches_le_one ext fetch cfg r
          simp only [List.length_cons]
          omega
  · intro b k e b2 k2 e2 h1 h2 h3 h4 _h5 _h6
    rw [proxyS3_failure_fallback ext fetch cfg r full b k e h1 h2 h3]
    simp only
    rw [proxyS3_spa_fetches_eq ext fetch cfg r b2 k2 h4]

/-- C2, witness: a concrete run whose first fetch and fallback fetch both
fail with 404 issues exactly those two fetches. -/
theorem at_most_two_fetches_witness :
    (ProxyS3 extEx fetchNotFound cfgEx { method := "GET" }
      "/frontend-assets/data/unknown/path").2 =
      [buildFetchRequest extEx { method := "GET" } "frontend-assets" "data/unknown/path",
       buildFetchRequest extEx { method := "GET" } "frontend-assets" "index.html"] :=
  (at_most_two_fetches extEx fetchNotFound cfgEx { method := "GET" }
      "/frontend-assets/data/unknown/path").2
    "frontend-assets" "data/unknown/path" (S3Err.apiError "NoSuchKey" S3Err.nilErr)
    "frontend-assets" "index.html" (S3Err.apiError "NoSuchKey" S3Err.nilErr)
    (by decide) rfl
    (by rw [s3ErrorToStatus_apiError_nil]; decide)
    (by decide) rfl
    (Or.inl (by rw [s3ErrorToStatus_apiError_nil]; decide))

/-- C3: the error-to-status translation table — deadline-exceeded maps to
504; not-found-class codes to 404; access-denied/forbidden/credential codes
to 403; precondition-failed to 412; invalid-range to 416; malformed-request
codes to 400; request-timeout to 408; slow-down/service-unavailable to 503;
internal-error to 500; every unrecognized code and every uncategorized error
to 502.  The translation is a Lean function, hence total and deterministic. -/
theorem s3ErrorToStatus_category_table :
    s3ErrorToStatus S3Err.deadlineExceeded = 504 ∧
    (∀ code ∈ ["NoSuchBucket", "NoSuchKey", "NotFound", "NoSuchVersion"],
      s3ErrorToStatus (.apiError code .nilErr) = 404) ∧
    (∀ code ∈ ["AccessDenied", "Forbidden", "SignatureDoesNotMatch",
        "InvalidAccessKeyId", "ExpiredToken", "RequestTimeTooSkewed",
        "InvalidObjectState"],
      s3ErrorToStatus (.apiError code .nilErr) = 403) ∧
    s3ErrorToStatus (.apiError "PreconditionFailed" .nilErr) = 412 ∧
    s3ErrorToStatus (.apiError "InvalidRange" .nilErr) = 416 ∧
    (∀ code ∈ ["AuthorizationHeaderMalformed", "InvalidRequest",
        "InvalidArgument", "MalformedXML"],
      s3ErrorToStatus (.apiError code .nilErr) = 400) ∧
    s3ErrorToStatus (.apiError "RequestTimeout" .nilErr) = 408 ∧
    (∀ code ∈ ["SlowDown", "ServiceUnavailable"],
      s3ErrorToStatus (.apiError code .nilErr) = 503) ∧
    s3ErrorToStatus (.apiError "InternalError" .nilErr) = 500 ∧
    (∀ code, code ∉ recognizedCodes →
      s3ErrorToStatus (.apiError code .nilErr) = 502) ∧
    s3ErrorToStatus (.generic .nilErr) = 502 := by
  refine ⟨?_, ?_, ?_, ?_, ?_, ?_, ?_, ?_, ?_, ?_, ?_⟩
  · rw [s3ErrorToStatus]; simp [errIsDeadline]
  · intro code hc
    rw [s3ErrorToStatus_apiError_nil]
    fin_cases hc <;> rfl
  · intro code hc
    rw [s3ErrorToStatus_apiError_nil]
    fin_cases hc <;> rfl
  · rw [s3ErrorToStatus_apiError_nil]; rfl
  · rw [s3ErrorToStatus_apiError_nil]; rfl
  · intro code hc
    rw [s3ErrorToStatus_apiError_nil]
    fin_cases hc <;> rfl
  · rw [s3ErrorToStatus_apiError_nil]; rfl
  · intro code hc
    rw [s3ErrorToStatus_apiError_nil]
    fin_cases hc <;> rfl
  · rw [s3ErrorToStatus_apiError_nil]; rfl
  · intro code hc
    rw [s3ErrorToStatus_apiError_nil, apiCodeToStatus_eq_none_of_not_mem code hc]
    rfl
  · rw [s3ErrorToStatus]
    simp [errIsDeadline, asResponseError, asOperationError, apiErrorStatus,
      asAPIError]

/-- C3, witness: the table applied to a recognized code and to an
unrecognizable one. -/
theorem s3ErrorToStatus_category_table_witness :
    s3ErrorToStatus (.apiError "NoSuchKey" .nilErr) = 404 ∧
    s3ErrorToStatus (.apiError "HTTPError" .nilErr) = 502 :=
  ⟨s3ErrorToStatus_category_table.2.1 "NoSuchKey" (by decide),
   s3ErrorToStatus_category_table.2.2.2.2.2.2.2.2.2.1 "HTTPError" (by decide)⟩

/-- C4, counterexample: with bucket path `/frontend-assets` and SPA entry
`/index.html`, the fallback fetch targets `/frontend-assets/index.html`
(bucket `frontend-assets`, key `index.html`), not the claimed
`/frontend-assets/data/index.html` (whose key would be `data/index.html`). -/
theorem spa_fallback_path_counterexample :
    spaPathOf cfgEx = "/frontend-assets/index.html" ∧
    spaPathOf cfgEx ≠ "/frontend-assets/data/index.html" ∧
    (ProxyS3 extEx fetchOnlySpa cfgEx { method := "GET" }
        "/frontend-assets/data/unknown/path").2.map
        (fun q => (q.bucket, q.key)) =
      [("frontend-assets", "data/unknown/path"), ("frontend-assets", "index.html")] ∧
    ("index.html" : String) ≠ "data/index.html" := by
  have h3 : shouldFallback cfgEx
      (s3ErrorToStatus (S3Err.apiError "NoSuchKey" S3Err.nilErr))
      "/frontend-assets/data/unknown/path" = true := by
    rw [s3ErrorToStatus_apiError_nil]; decide
  refine ⟨by decide, by decide, ?_, by decide⟩
  rw [proxyS3_failure_fallback extEx fetchOnlySpa cfgEx { method := "GET" }
      "/frontend-assets/data/unknown/path" "frontend-assets" "data/unknown/path"
      (S3Err.apiError "NoSuchKey" S3Err.nilErr) (by decide) (by decide) h3,
    proxyS3_spa_fetches_eq extEx fetchOnlySpa cfgEx { method := "GET" }
      "frontend-assets" "index.html" (by decide)]
  decide

/-- C4, amended: with bucket path prefix `/frontend-assets` and SPA entry
path `/index.html`, every fallback-triggering request falls back to the
object path `/frontend-assets/index.html` — the SPA entry object joined
directly under the bucket path, with no `/data` subpath — so the fallback
fetch is for bucket `frontend-assets`, key `index.html`. -/
theorem spa_fallback_targets_root_index (ext : Externals)
    (fetch : FetchRequest → FetchOutcome) (r : InRequest)
    (full b k : String) (e : S3Err)
    (h1 : splitPath ext full = some (b, k))
    (h2 : fetch (buildFetchRequest ext r b k) = FetchOutcome.failure e)
    (h3 : shouldFallback cfgEx (s3ErrorToStatus e) full = true)
    (hu : ∀ s, ext.pathUnescape s = some s) :
    spaPathOf cfgEx = "/frontend-assets/index.html" ∧
    (ProxyS3 ext fetch cfgEx r full).2 =
      [buildFetchRequest ext r b k,
       buildFetchRequest ext r "frontend-assets" "index.html"] := by
  have h4 : splitPath ext (spaPathOf cfgEx) =
      some ("frontend-assets", "index.html") := by
    rw [splitPath_congr ext extEx _ (fun s => (hu s).trans rfl)]
    decide
  refine ⟨by decide, ?_⟩
  rw [proxyS3_failure_fallback ext fetch cfgEx r full b k e h1 h2 h3]
  simp only
  rw [proxyS3_spa_fetches_eq ext fetch cfgEx r "frontend-assets" "index.html" h4]

/-- C4, witness: the amended theorem applied to a deep link in an unknown
bucket. -/
theorem spa_fallback_targets_root_index_witness :
    (ProxyS3 extEx fetchNotFound cfgEx { method := "GET" }
        "/unknown-bucket/deep/link").2 =
      [buildFetchRequest extEx { method := "GET" } "unknown-bucket" "deep/link",
       buildFetchRequest extEx { method := "GET" } "frontend-assets" "index.html"] := by
  have h3 : shouldFallback cfgEx
      (s3ErrorToStatus (S3Err.apiError "NoSuchKey" S3Err.nilErr))
      "/unknown-bucket/deep/link" = true := by
    rw [s3ErrorToStatus_apiError_nil]; decide
  exact (spa_fallback_targets_root_index extEx fetchNotFound { method := "GET" }
    "/unknown-bucket/deep/link" "unknown-bucket" "deep/link"
    (S3Err.apiError "NoSuchKey" S3Err.nilErr) (by decide) rfl h3
    (fun s => rfl)).2

/-- C5, counterexample: `GET /apps/chrome/navigation.json` with prefix
`/frontend-assets` resolves to `/frontend-assets/data/chrome/navigation.json`
— the `chrome` segment is kept, so the claimed object path
`/frontend-assets/data/navigation.json` is wrong. -/
theorem apps_route_counterexample :
    appsFull "/frontend-assets" "/apps/chrome/navigation.json" =
      "/frontend-assets/data/chrome/navigation.json" ∧
    appsFull "/frontend-assets" "/apps/chrome/navigation.json" ≠
      "/frontend-assets/data/navigation.json" := by
  constructor <;> decide

/-- C5, amended: `GET /apps/chrome/navigation.json` with prefix
`/frontend-assets` resolves to `/frontend-assets/data/chrome/navigation.json`
(the `/apps` prefix is replaced by `/data`, keeping the app segment), and a
successful fetch whose descriptor carries content type `application/json`
yields a 200 response with header `Content-Type: application/json`. -/
theorem apps_route_resolution (ext : Externals)
    (fetch : FetchRequest → FetchOutcome) (cfg : Config) (r : InRequest)
    (b k : String) (obj : ObjectOutput)
    (h1 : splitPath ext "/frontend-assets/data/chrome/navigation.json" =
      some (b, k))
    (h2 : fetch (buildFetchRequest ext r b k) = FetchOutcome.success obj)
    (h3 : obj.contentType = some "application/json") :
    appsFull "/frontend-assets" "/apps/chrome/navigation.json" =
      "/frontend-assets/data/chrome/navigation.json" ∧
    (ProxyS3 ext fetch cfg r
        "/frontend-assets/data/chrome/navigation.json").1.status = 200 ∧
    ("Content-Type", "application/json") ∈
      (ProxyS3 ext fetch cfg r
        "/frontend-assets/data/chrome/navigation.json").1.headers := by
  refine ⟨by decide, ?_, ?_⟩ <;>
    rw [proxyS3_success ext fetch cfg r _ b k obj h1 h2]
  · rfl
  · exact contentType_mem_successResponse ext r obj _ h3

/-- C5, witness: the amended theorem applied to a concrete upstream holding
the navigation object. -/
theorem apps_route_resolution_witness :
    (ProxyS3 extEx fetchNav cfgEx { method := "GET" }
        "/frontend-assets/data/chrome/navigation.json").1.status = 200 ∧
    ("Content-Type", "application/json") ∈
      (ProxyS3 extEx fetchNav cfgEx { method := "GET" }
        "/frontend-assets/data/chrome/navigation.json").1.headers :=
  ⟨(apps_route_resolution extEx fetchNav cfgEx { method := "GET" }
      "frontend-assets" "data/chrome/navigation.json" navObj
      (by decide) (by decide) rfl).2.1,
   (apps_route_resolution extEx fetchNav cfgEx { method := "GET" }
      "frontend-assets" "data/chrome/navigation.json" navObj
      (by decide) (by decide) rfl).2.2⟩

/-- C6: when the resolved full object path cannot be split into a non-empty
bucket and a non-empty key, the proxy responds 400 with body `bad request`
and issues no upstream fetch at all. -/
theorem invalid_path_rejected (ext : Externals)
    (fetch : FetchRequest → FetchOutcome) (cfg : Config) (r : InRequest)
    (full : String) (h : splitPath ext full = none) :
    (ProxyS3 ext fetch cfg r full).1.status = 400 ∧
    (ProxyS3 ext fetch cfg r full).1.body = "bad request" ++ "\n" ∧
    (ProxyS3 ext fetch cfg r full).2 = [] := by
  rw [proxyS3_split_none ext fetch cfg r full h]
  exact ⟨rfl, rfl, rfl⟩

/-- C6, witness: the path `/nobucket` (no key segment) is rejected with 400
and no fetch. -/
theorem invalid_path_rejected_witness :
    splitPath extEx "/nobucket" = none ∧
    (ProxyS3 extEx fetchNotFound cfgEx { method := "GET" } "/nobucket").1.status = 400 ∧
    (ProxyS3 extEx fetchNotFound cfgEx { method := "GET" } "/nobucket").2 = [] := by
  have h := invalid_path_rejected extEx fetchNotFound cfgEx { method := "GET" }
    "/nobucket" (by decide)
  exact ⟨by decide, h.1, h.2.2⟩

/-- C7: every successful fetch yields a 200 response whose body is empty when
the inbound method is HEAD and is the descriptor's full byte stream when it
is GET. -/
theorem head_empty_get_full_body (ext : Externals)
    (fetch : FetchRequest → FetchOutcome) (cfg : Config) (r : InRequest)
    (full b k : String) (obj : ObjectOutput)
    (h1 : splitPath ext full = some (b, k))
    (h2 : fetch (buildFetchRequest ext r b k) = FetchOutcome.success obj) :
    (ProxyS3 ext fetch cfg r full).1.status = 200 ∧
    (ProxyS3 ext fetch cfg r full).1.body =
      (if r.method = "HEAD" then "" else obj.body) := by
  rw [proxyS3_success ext fetch cfg r full b k obj h1 h2]
  refine ⟨rfl, ?_⟩
  simp only [successResponse]
  by_cases hm : r.method = "HEAD" <;> simp [hm]

/-- C7, witness: a HEAD request for the SPA object gets an empty body, the
same GET gets the full body. -/
theorem head_empty_get_full_body_witness :
    (ProxyS3 extEx fetchOnlySpa cfgEx { method := "HEAD" }
      "/frontend-assets/index.html").1.body = "" ∧
    (ProxyS3 extEx fetchOnlySpa cfgEx { method := "GET" }
      "/frontend-assets/index.html").1.body = "<html>spa</html>" := by
  have hh := head_empty_get_full_body extEx fetchOnlySpa cfgEx { method := "HEAD" }
    "/frontend-assets/index.html" "frontend-assets" "index.html" spaObj
    (by decide) (by decide)
  have hg := head_empty_get_full_body extEx fetchOnlySpa cfgEx { method := "GET" }
    "/frontend-assets/index.html" "frontend-assets" "index.html" spaObj
    (by decide) (by decide)
  exact ⟨by simpa using hh.2, by simpa [spaObj] using hg.2⟩

/-- C8, counterexample: a final failure with translated status 404 produces
the body `Not Found` (with Go's `http.Error` trailing newline), not the
claimed `404 Not Found` — the numeric status code is not part of the body. -/
theorem final_failure_body_counterexample :
    (ProxyS3 extEx fetchNotFound cfgNoSpa { method := "GET" }
      "/frontend-assets/data/unknown/path").1.status = 404 ∧
    (ProxyS3 extEx fetchNotFound cfgNoSpa { method := "GET" }
      "/frontend-assets/data/unknown/path").1.body = "Not Found\n" ∧
    "Not Found\n" ≠ "404 Not Found" := by
  have h3 : shouldFallback cfgNoSpa
      (s3ErrorToStatus (S3Err.apiError "NoSuchKey" S3Err.nilErr))
      "/frontend-assets/data/unknown/path" = false := by
    simp [shouldFallback, cfgNoSpa]
  rw [proxyS3_failure_no_fallback extEx fetchNotFound cfgNoSpa { method := "GET" }
    "/frontend-assets/data/unknown/path" "frontend-assets" "data/unknown/path"
    (S3Err.apiError "NoSuchKey" S3Err.nilErr) (by decide) rfl h3,
    s3ErrorToStatus_apiError_nil]
  exact ⟨rfl, rfl, by decide⟩

/-- C8, amended: every request that ends in final failure is answered with
the translated status code and a plain-text body consisting of that status's
status text followed by a newline (Go `http.Error` semantics); the numeric
code is carried in the status line only, not in the body. -/
theorem final_failure_body (ext : Externals)
    (fetch : FetchRequest → FetchOutcome) (cfg : Config) (r : InRequest)
    (full b k : String) (e : S3Err)
    (h1 : splitPath ext full = some (b, k))
    (h2 : fetch (buildFetchRequest ext r b k) = FetchOutcome.failure e)
    (h3 : shouldFallback cfg (s3ErrorToStatus e) full = false) :
    (ProxyS3 ext fetch cfg r full).1.status = s3ErrorToStatus e ∧
    (ProxyS3 ext fetch cfg r full).1.body =
      statusText (s3ErrorToStatus e) ++ "\n" := by
  rw [proxyS3_failure_no_fallback ext fetch cfg r full b k e h1 h2 h3]
  exact ⟨rfl, rfl⟩

/-- C8, witness: the amended theorem applied to a missing object with no SPA
entrypoint configured. -/
theorem final_failure_body_witness :
    (ProxyS3 extEx fetchNotFound cfgNoSpa { method := "GET" }
      "/frontend-assets/data/app.js").1.body = statusText 404 ++ "\n" := by
  have h := final_failure_body extEx fetchNotFound cfgNoSpa { method := "GET" }
    "/frontend-assets/data/app.js" "frontend-assets" "data/app.js"
    (S3Err.apiError "NoSuchKey" S3Err.nilErr) (by decide) rfl
    (by simp [shouldFallback, cfgNoSpa])
  rw [h.2, s3ErrorToStatus_apiError_nil]; decide

/-- C9: when the first fetch fails with a 403/404-translated status but no
SPA entrypoint is configured or the resolved path already equals the SPA
entry object path, no fallback fetch is issued and the translated status is
returned directly. -/
theorem no_fallback_at_spa_path (ext : Externals)
    (fetch : FetchRequest → FetchOutcome) (cfg : Config) (r : InRequest)
    (full b k : String) (e : S3Err)
    (h1 : splitPath ext full = some (b, k))
    (h2 : fetch (buildFetchRequest ext r b k) = FetchOutcome.failure e)
    (hs : s3ErrorToStatus e = 404 ∨ s3ErrorToStatus e = 403)
    (hg : cfg.spaEntrypointPath = "" ∨ full = spaPathOf cfg) :
    (ProxyS3 ext fetch cfg r full).1.status = s3ErrorToStatus e ∧
    (ProxyS3 ext fetch cfg r full).2 = [buildFetchRequest ext r b k] := by
  have h3 : shouldFallback cfg (s3ErrorToStatus e) full = false := by
    rcases hg with hg | hg <;> simp [shouldFallback, hg]
  rw [proxyS3_failure_no_fallback ext fetch cfg r full b k e h1 h2 h3]
  exact ⟨rfl, rfl⟩

/-- C9, witness: a request for the SPA entry object path itself, when that
object is missing, is answered 404 after exactly one fetch. -/
theorem no_fallback_at_spa_path_witness :
    (ProxyS3 extEx fetchNotFound cfgEx { method := "GET" }
      "/frontend-assets/index.html").1.status = 404 ∧
    (ProxyS3 extEx fetchNotFound cfgEx { method := "GET" }
      "/frontend-assets/index.html").2 =
      [buildFetchRequest extEx { method := "GET" } "frontend-assets" "index.html"] := by
  have h := no_fallback_at_spa_path extEx fetchNotFound cfgEx { method := "GET" }
    "/frontend-assets/index.html" "frontend-assets" "index.html"
    (S3Err.apiError "NoSuchKey" S3Err.nilErr) (by decide) rfl
    (Or.inl (by rw [s3ErrorToStatus_apiError_nil]; decide))
    (Or.inr (by decide))
  refine ⟨?_, h.2⟩
  rw [h.1, s3ErrorToStatus_apiError_nil]; decide

/-- C10, counterexample: an error that carries an HTTP response with status
304 but whose unwrap chain contains `context.DeadlineExceeded` translates to
504, not to the carried status — the deadline check runs before the
response-bearing check, so the claim as stated fails. -/
theorem s3ErrorToStatus_response_counterexample :
    asResponseError (S3Err.responseError (some 304) S3Err.deadlineExceeded) =
      some (some 304) ∧
    s3ErrorToStatus (S3Err.responseError (some 304) S3Err.deadlineExceeded) = 504 ∧
    (504 : Nat) ≠ 304 := by
  refine ⟨rfl, ?_, by decide⟩
  rw [s3ErrorToStatus]
  simp [errIsDeadline]

/-- C10, amended: whenever the upstream error carries an HTTP response and
its unwrap chain does not contain deadline-exceeded (which is checked
first), the translator returns that response's status code verbatim, so any
upstream status — 304 included — can be emitted. -/
theorem s3ErrorToStatus_response_verbatim (e : S3Err) (sc : Nat)
    (h1 : errIsDeadline e = false)
    (h2 : asResponseError e = some (some sc)) :
    s3ErrorToStatus e = sc := by
  rw [s3ErrorToStatus]
  simp [h1, h2]

/-- C10, witness: a response-bearing error with status 304 and no deadline on
its chain translates to 304. -/
theorem s3ErrorToStatus_response_verbatim_witness :
    s3ErrorToStatus (S3Err.responseError (some 304) S3Err.nilErr) = 304 :=
  s3ErrorToStatus_response_verbatim _ 304 rfl rfl

end FrontendAssetProxy
